import Mathlib

/-!
Shallow embedding of the `django-deprecated-field` library
(`src/deprecated_field/__init__.py`) and proofs of the behavioural claims
about it.

Modelling conventions:
* Python runtime values that can flow through the library are `PyValue`.
* The Django settings object is reduced to the single attribute this library
  reads, `STRICT_DEPRECATED_FIELD`; `Option.none` models the attribute being
  absent, so `getattr(settings, "STRICT_DEPRECATED_FIELD", None)` is
  `Option.getD` with `PyValue.vNone` as the default.
* An operation that may call `log_or_raise` is embedded as a function
  returning `Except DeprecatedFieldAccessError (List LogRecord × α)`:
  the `error` branch is the raised `DeprecatedFieldAccessError`, and the
  `ok` branch carries the log records emitted by the call together with the
  Python return value.
* Python `%`-formatting with `%s` placeholders is `pyFormat`.
-/

set_option maxHeartbeats 1000000

namespace DeprecatedFieldLib

/-- Python values relevant to this library: `None`, booleans, integers and
strings. The distinction between `vBool true` and other truthy values matters
because `log_or_raise` tests the setting with `is True`. -/
inductive PyValue where
  | vNone
  | vBool (b : Bool)
  | vInt (n : Int)
  | vStr (s : String)
deriving DecidableEq, Repr

/-- Severity levels of the Python `logging` module (the library only ever logs
via `logger.error`). -/
inductive LogLevel where
  | debug
  | info
  | warning
  | error
  | critical
deriving DecidableEq, Repr

/-- One emitted log record: the `%`-formatted message, the severity it was
emitted at, and whether `stack_info=True` was passed (captured call stack). -/
structure LogRecord where
  message : String
  level : LogLevel
  stack_info : Bool
deriving DecidableEq, Repr

/-- The exception type raised in strict mode
(`class DeprecatedFieldAccessError(Exception)`); it carries the formatted
message. -/
structure DeprecatedFieldAccessError where
  message : String
deriving DecidableEq, Repr

/-- The Django settings object, reduced to the one attribute this library
reads: `Option.none` models `STRICT_DEPRECATED_FIELD` being unset. -/
abbrev Settings := Option PyValue

/-- The value of `getattr(settings, "STRICT_DEPRECATED_FIELD", None)`. -/
def strictFlag (settings : Settings) : PyValue :=
  settings.getD PyValue.vNone

/-- Python `%`-formatting on the character list of the template, restricted to
the `%s` conversion (the only one the library uses) plus the `%%` escape. Each
`%s` consumes the next argument. -/
def pyFormatChars : List Char → List String → List Char
  | [], _ => []
  | '%' :: 's' :: rest, a :: args => a.data ++ pyFormatChars rest args
  | '%' :: '%' :: rest, args => '%' :: pyFormatChars rest args
  | c :: rest, args => c :: pyFormatChars rest args

/-- Python `template % args` for `%s`-only templates. -/
def pyFormat (fmt : String) (args : List String) : String :=
  String.mk (pyFormatChars fmt.data args)

/-- Embedding of `log_or_raise(message_format, *args)`:
reads `STRICT_DEPRECATED_FIELD` from the settings passed at this call; when it
is the boolean `True` (Python `is True`), formats the message and raises
`DeprecatedFieldAccessError` (no log record); otherwise calls
`logger.error(message_format, *args, stack_info=True)`, which emits one record
at error severity whose message is the `%`-formatted template, and returns
`None`. -/
def log_or_raise (settings : Settings) (message_format : String) (args : List String) :
    Except DeprecatedFieldAccessError (List LogRecord × PyValue) :=
  if strictFlag settings = PyValue.vBool true then
    Except.error { message := pyFormat message_format args }
  else
    Except.ok
      ([{ message := pyFormat message_format args
          level := LogLevel.error
          stack_info := true }],
        PyValue.vNone)

/-- The `__module__` and `__qualname__` of a model class. -/
structure ClassInfo where
  module : String
  qualname : String
deriving DecidableEq, Repr

/-- A model instance: its class and its attribute dictionary. -/
structure InstanceInfo where
  cls : ClassInfo
  attrs : List (String × PyValue)
deriving DecidableEq, Repr

/-- The part of a bound field the descriptor reads: its `name`. -/
structure FieldInfo where
  name : String
deriving DecidableEq, Repr

/-- `DeprecatedFieldDescriptor`: its only state is the field it was
constructed with (`self.field`), never reassigned. -/
structure DeprecatedFieldDescriptor where
  field : FieldInfo
deriving DecidableEq, Repr

/-- Message template of `DeprecatedFieldDescriptor.__get__` on an instance. -/
def accessedInstanceTemplate : String :=
  "Accessed deprecated field \"%s\" on instance of \"%s.%s\""

/-- Message template of `DeprecatedFieldDescriptor.__get__` on the class. -/
def accessedClassTemplate : String :=
  "Accessed deprecated field \"%s\" on model class \"%s.%s\""

/-- Message template of `DeprecatedFieldDescriptor.__set__`. -/
def setInstanceTemplate : String :=
  "Tried to set deprecated field \"%s\" on instance of \"%s.%s\""

/-- Message template of `DeprecatedField.get_col`. -/
def queryTemplate : String :=
  "Deprecated field \"%s\" on \"%s.%s\" referenced in query"

/-- Message template of `DeprecatedField.get_db_prep_save`. -/
def writeTemplate : String :=
  "Writing to deprecated field \"%s\" on \"%s.%s\""

/-- Embedding of `DeprecatedFieldDescriptor.__get__(self, instance, cls=None)`:
when an instance is given, escalate the "accessed on instance" message built
from the field name and the instance's class `__module__`/`__qualname__`;
otherwise, when a class is given, escalate the "accessed on model class"
message; the body never returns a value, so every non-raising path yields
`None`, and no path writes to the instance or the descriptor. -/
def DeprecatedFieldDescriptor.get (self : DeprecatedFieldDescriptor) (settings : Settings)
    (obj : Option InstanceInfo) (cls : Option ClassInfo) :
    Except DeprecatedFieldAccessError (List LogRecord × PyValue) :=
  match obj with
  | Option.some inst =>
    match log_or_raise settings accessedInstanceTemplate
        [self.field.name, inst.cls.module, inst.cls.qualname] with
    | Except.error e => Except.error e
    | Except.ok (logs, _) => Except.ok (logs, PyValue.vNone)
  | Option.none =>
    match cls with
    | Option.some c =>
      match log_or_raise settings accessedClassTemplate
          [self.field.name, c.module, c.qualname] with
      | Except.error e => Except.error e
      | Except.ok (logs, _) => Except.ok (logs, PyValue.vNone)
    | Option.none => Except.ok ([], PyValue.vNone)

/-- Embedding of `DeprecatedFieldDescriptor.__set__(self, instance, value)`:
escalates the "tried to set" message and does nothing else — in particular the
body contains no attribute assignment, so the returned post-state of the
instance is the unchanged input instance and `value` is never consulted. -/
def DeprecatedFieldDescriptor.set (self : DeprecatedFieldDescriptor) (settings : Settings)
    (obj : InstanceInfo) (value : PyValue) :
    Except DeprecatedFieldAccessError (List LogRecord × InstanceInfo) :=
  match log_or_raise settings setInstanceTemplate
      [self.field.name, obj.cls.module, obj.cls.qualname] with
  | Except.error e => Except.error e
  | Except.ok (logs, _) => Except.ok (logs, obj)

/-- An original (wrapped) field definition: its type tag and the declarative
constraints relevant here (`max_length`, `null`). -/
structure OriginalField where
  fieldType : String
  max_length : Option Nat
  null : Bool
deriving DecidableEq, Repr

/-- Django's `Field.clone` reconstructs an equal, independent field from the
field's deconstruction; on this pure data model a fresh copy of the field's
data is the data itself. -/
def OriginalField.clone (f : OriginalField) : OriginalField := f

/-- `DeprecatedField` before it is attached to a model class: it stores the
original field passed to `__init__`. -/
structure DeprecatedField where
  original_field : OriginalField
deriving DecidableEq, Repr

/-- Embedding of `DeprecatedField.clone`: returns a clone of the *original*
field (`self.original_field.clone()`), not of the wrapper — the result type is
`OriginalField`. -/
def DeprecatedField.clone (f : DeprecatedField) : OriginalField :=
  f.original_field.clone

/-- Embedding of `deprecated(original_field)`: forces
`original_field.null = True`, then wraps it in a `DeprecatedField`. The
wrapper holds the mutated field, so later clones observe `null = true`. -/
def deprecated (original_field : OriginalField) : DeprecatedField :=
  { original_field := { original_field with null := true } }

/-- A `DeprecatedField` after `contribute_to_class`: bound to a model class
under a name, with its `concrete` flag set. -/
structure BoundDeprecatedField where
  original_field : OriginalField
  name : String
  model : ClassInfo
  concrete : Bool
deriving DecidableEq, Repr

/-- Embedding of `DeprecatedField.contribute_to_class`: the superclass call
binds the field to the class under the given name, then `self.concrete` is set
to `False`. -/
def DeprecatedField.contribute_to_class (f : DeprecatedField) (cls : ClassInfo)
    (fieldName : String) : BoundDeprecatedField :=
  { original_field := f.original_field
    name := fieldName
    model := cls
    concrete := false }

/-- `DeprecatedField.clone` on a bound field: same body, a clone of the
original field. -/
def BoundDeprecatedField.clone (f : BoundDeprecatedField) : OriginalField :=
  f.original_field.clone

/-- The `output_field` stored in a `Null` expression: either an explicitly
supplied field or the deprecated field itself (`output_field or self`). -/
inductive OutputField where
  | field (f : OriginalField)
  | deprecatedField (f : BoundDeprecatedField)
deriving DecidableEq, Repr

/-- Embedding of the `Null(models.Expression)` class: its only state is the
`output_field` it was constructed with. -/
structure Null where
  output_field : OutputField
deriving DecidableEq, Repr

/-- Embedding of `Null.as_sql(self, compiler, connection)`: returns the SQL
text `"NULL"` and an empty parameter list, for any compiler and connection and
regardless of `output_field`. -/
def Null.as_sql {C D : Type} (e : Null) (compiler : C) (connection : D) :
    String × List PyValue :=
  ("NULL", [])

/-- Embedding of `DeprecatedField.get_col(self, alias, output_field=None)`:
escalates the "referenced in query" message built from `self.name` and the
owning model's `__module__`/`__qualname__`, then returns
`Null(output_field=output_field or self)` — the supplied output field when one
is given (field objects are truthy), else the deprecated field itself. The
`colAlias` argument is ignored, as in the source. -/
def BoundDeprecatedField.get_col (self : BoundDeprecatedField) (settings : Settings)
    (colAlias : String) (output_field : Option OriginalField) :
    Except DeprecatedFieldAccessError (List LogRecord × Null) :=
  match log_or_raise settings queryTemplate
      [self.name, self.model.module, self.model.qualname] with
  | Except.error e => Except.error e
  | Except.ok (logs, _) =>
    Except.ok (logs,
      { output_field :=
          match output_field with
          | Option.some f => OutputField.field f
          | Option.none => OutputField.deprecatedField self })

/-- A database connection, opaque to this library. -/
structure DbConnection where
  vendor : String
deriving DecidableEq, Repr

/-- The shape of the framework-inherited `Field.get_db_prep_value(value,
connection, prepared)` hook: `DeprecatedField` does not override it, so it is
supplied by the surrounding ORM and passed in explicitly here. -/
abbrev DbPrepFn := PyValue → DbConnection → Bool → PyValue

/-- Embedding of `DeprecatedField.get_db_prep_save(self, value, connection)`:
escalates the "writing to deprecated field" message, then returns
`self.get_db_prep_value(value, connection=connection, prepared=False)` — the
framework's standard preparation of the value for the underlying column, so
the prepared value (and hence the write) still reaches the physical column. -/
def BoundDeprecatedField.get_db_prep_save (self : BoundDeprecatedField) (settings : Settings)
    (get_db_prep_value : DbPrepFn) (value : PyValue) (connection : DbConnection) :
    Except DeprecatedFieldAccessError (List LogRecord × PyValue) :=
  match log_or_raise settings writeTemplate
      [self.name, self.model.module, self.model.qualname] with
  | Except.error e => Except.error e
  | Except.ok (logs, _) => Except.ok (logs, get_db_prep_value value connection false)

/-- The value returned by a field's `get_default` hook: Django's `DEFERRED`
sentinel ("leave the attribute unset") or a concrete default value. -/
inductive DefaultValue where
  | DEFERRED
  | value (v : PyValue)
deriving DecidableEq, Repr

/-- Embedding of `DeprecatedField.get_default(self)`: returns
`models.DEFERRED` unconditionally; the body performs no escalation, so no log
record is emitted and no exception raised in either policy mode (the ambient
settings are never consulted). -/
def BoundDeprecatedField.get_default (self : BoundDeprecatedField) (settings : Settings) :
    Except DeprecatedFieldAccessError (List LogRecord × DefaultValue) :=
  Except.ok ([], DefaultValue.DEFERRED)

/-- Modelled from the spec: Django's model construction (`Model.__init__`,
`create()`) is not part of this repository. Per the spec (the default-value
hook "returns a sentinel meaning leave unset" and the silent-construction
invariant), when no value is supplied for a field the framework calls the
field's `get_default` hook; the `DEFERRED` sentinel means the attribute is
left unset, while a concrete default would be assigned through the field's
descriptor. -/
def constructWithoutValue (self : BoundDeprecatedField) (settings : Settings)
    (desc : DeprecatedFieldDescriptor) (obj : InstanceInfo) :
    Except DeprecatedFieldAccessError (List LogRecord × InstanceInfo) :=
  match self.get_default settings with
  | Except.error e => Except.error e
  | Except.ok (logs, DefaultValue.DEFERRED) => Except.ok (logs, obj)
  | Except.ok (logs, DefaultValue.value v) =>
    match desc.set settings obj v with
    | Except.error e => Except.error e
    | Except.ok (logs2, obj2) => Except.ok (logs ++ logs2, obj2)

/-- One attribute read of the deprecated field through its descriptor,
threaded through the instance state: the pair is the outcome of
`__get__` and the instance after the read. The source body of `__get__`
contains no assignment, so the post-state is the unchanged instance. -/
def readField (desc : DeprecatedFieldDescriptor) (settings : Settings) (obj : InstanceInfo) :
    Except DeprecatedFieldAccessError (List LogRecord × PyValue) × InstanceInfo :=
  (desc.get settings (Option.some obj) (Option.some obj.cls), obj)

/-- `n` successive reads of the deprecated field on the same instance, each
read receiving the instance state produced by the previous read. -/
def repeatedReads (desc : DeprecatedFieldDescriptor) (settings : Settings) :
    Nat → InstanceInfo → List (Except DeprecatedFieldAccessError (List LogRecord × PyValue))
  | 0, _ => []
  | Nat.succ n, obj =>
    let r := readField desc settings obj
    r.1 :: repeatedReads desc settings n r.2

/-! Helper lemmas shared by the claim theorems. -/

/-- In strict mode `log_or_raise` raises the formatted message. -/
theorem log_or_raise_strict (settings : Settings) (fmt : String) (args : List String)
    (h : strictFlag settings = PyValue.vBool true) :
    log_or_raise settings fmt args = Except.error { message := pyFormat fmt args } := by
  simp [log_or_raise, h]

/-- Outside strict mode `log_or_raise` emits exactly one error-level record
with stack info and returns `None`. -/
theorem log_or_raise_nonstrict (settings : Settings) (fmt : String) (args : List String)
    (h : strictFlag settings ≠ PyValue.vBool true) :
    log_or_raise settings fmt args =
      Except.ok
        ([{ message := pyFormat fmt args
            level := LogLevel.error
            stack_info := true }],
          PyValue.vNone) := by
  simp [log_or_raise, h]

/-- A strict-mode instance read raises the "accessed on instance" message. -/
theorem descGet_instance_strict (desc : DeprecatedFieldDescriptor) (settings : Settings)
    (obj : InstanceInfo) (cls : Option ClassInfo)
    (h : strictFlag settings = PyValue.vBool true) :
    desc.get settings (Option.some obj) cls =
      Except.error { message := (pyFormat accessedInstanceTemplate
        [desc.field.name, obj.cls.module, obj.cls.qualname]) } := by
  simp [DeprecatedFieldDescriptor.get, log_or_raise_strict settings _ _ h]

/-- A non-strict instance read logs the "accessed on instance" message once
and returns `None`. -/
theorem descGet_instance_nonstrict (desc : DeprecatedFieldDescriptor) (settings : Settings)
    (obj : InstanceInfo) (cls : Option ClassInfo)
    (h : strictFlag settings ≠ PyValue.vBool true) :
    desc.get settings (Option.some obj) cls =
      Except.ok
        ([{ message := (pyFormat accessedInstanceTemplate
              [desc.field.name, obj.cls.module, obj.cls.qualname])
            level := LogLevel.error
            stack_info := true }],
          PyValue.vNone) := by
  simp [DeprecatedFieldDescriptor.get, log_or_raise_nonstrict settings _ _ h]

/-! Claim theorems. -/

/-- Claim C1: `deprecated(F)` forces the wrapped field's nullability flag to
true, and the wrapper's `clone` returns a clone of the original field object
(not of the wrapper), so `deprecated(F).clone` equals `F.clone` except that
`null` is forced true. -/
theorem deprecated_clone_fidelity (F : OriginalField) :
    (deprecated F).clone = { F.clone with null := true } ∧
    (deprecated F).original_field = { F with null := true } ∧
    (deprecated F).clone = ((deprecated F).original_field).clone :=
  ⟨rfl, rfl, rfl⟩

/-- Claim C2: `log_or_raise` reads the `STRICT_DEPRECATED_FIELD` flag from the
settings in force at the call; when the flag is the boolean `True` it raises a
`DeprecatedFieldAccessError` carrying the `%`-formatted message and emits no
log record; otherwise it emits exactly one record at error severity with stack
info, whose message is the formatted template, and returns `None`. -/
theorem log_or_raise_policy (settings : Settings) (fmt : String) (args : List String) :
    (strictFlag settings = PyValue.vBool true →
      log_or_raise settings fmt args = Except.error { message := pyFormat fmt args }) ∧
    (strictFlag settings ≠ PyValue.vBool true →
      log_or_raise settings fmt args =
        Except.ok
          ([{ message := pyFormat fmt args
              level := LogLevel.error
              stack_info := true }],
            PyValue.vNone)) :=
  ⟨fun h => log_or_raise_strict settings fmt args h,
    fun h => log_or_raise_nonstrict settings fmt args h⟩

theorem log_or_raise_policy_witness :
    (strictFlag (Option.some (PyValue.vBool true)) = PyValue.vBool true ∧
      log_or_raise (Option.some (PyValue.vBool true)) "touched %s" ["f"] =
        Except.error { message := pyFormat "touched %s" ["f"] }) ∧
    (strictFlag Option.none ≠ PyValue.vBool true ∧
      log_or_raise Option.none "touched %s" ["f"] =
        Except.ok
          ([{ message := pyFormat "touched %s" ["f"]
              level := LogLevel.error
              stack_info := true }],
            PyValue.vNone)) :=
  ⟨⟨by decide,
      (log_or_raise_policy (Option.some (PyValue.vBool true)) "touched %s" ["f"]).1 (by decide)⟩,
    ⟨by decide,
      (log_or_raise_policy Option.none "touched %s" ["f"]).2 (by decide)⟩⟩

/-- Claim C3: `get_col` escalates the "referenced in query" message built from
the field name and the owning model's qualified name, and, when escalation
does not raise, returns a `Null` expression whose `output_field` is the
supplied output field, or the deprecated field itself when none is given. -/
theorem get_col_spec (settings : Settings) (self : BoundDeprecatedField) (colAlias : String)
    (output_field : Option OriginalField) :
    (strictFlag settings = PyValue.vBool true →
      self.get_col settings colAlias output_field =
        Except.error { message := (pyFormat queryTemplate
          [self.name, self.model.module, self.model.qualname]) }) ∧
    (strictFlag settings ≠ PyValue.vBool true →
      self.get_col settings colAlias output_field =
        Except.ok
          ([{ message := (pyFormat queryTemplate
                [self.name, self.model.module, self.model.qualname])
              level := LogLevel.error
              stack_info := true }],
            { output_field :=
                (output_field.map OutputField.field).getD (OutputField.deprecatedField self) })) := by
  constructor
  · intro h
    simp [BoundDeprecatedField.get_col, log_or_raise_strict settings _ _ h]
  · intro h
    cases output_field with
    | none =>
      simp [BoundDeprecatedField.get_col, log_or_raise_nonstrict settings _ _ h]
    | some f =>
      simp [BoundDeprecatedField.get_col, log_or_raise_nonstrict settings _ _ h]

theorem get_col_spec_witness :
    (strictFlag (Option.some (PyValue.vBool true)) = PyValue.vBool true ∧
      BoundDeprecatedField.get_col
          { original_field := { fieldType := "CharField", max_length := Option.some 100, null := true }
            name := "name"
            model := { module := "tests.models", qualname := "Genre" }
            concrete := false }
          (Option.some (PyValue.vBool true)) "genre" Option.none =
        Except.error { message := (pyFormat queryTemplate ["name", "tests.models", "Genre"]) }) ∧
    (strictFlag Option.none ≠ PyValue.vBool true ∧
      BoundDeprecatedField.get_col
          { original_field := { fieldType := "CharField", max_length := Option.some 100, null := true }
            name := "name"
            model := { module := "tests.models", qualname := "Genre" }
            concrete := false }
          Option.none "genre" Option.none =
        Except.ok
          ([{ message := (pyFormat queryTemplate ["name", "tests.models", "Genre"])
              level := LogLevel.error
              stack_info := true }],
            { output_field := OutputField.deprecatedField
                { original_field := { fieldType := "CharField", max_length := Option.some 100, null := true }
                  name := "name"
                  model := { module := "tests.models", qualname := "Genre" }
                  concrete := false } })) :=
  ⟨⟨by decide,
      (get_col_spec (Option.some (PyValue.vBool true))
        { original_field := { fieldType := "CharField", max_length := Option.some 100, null := true }
          name := "name"
          model := { module := "tests.models", qualname := "Genre" }
          concrete := false } "genre" Option.none).1 (by decide)⟩,
    ⟨by decide,
      (get_col_spec Option.none
        { original_field := { fieldType := "CharField", max_length := Option.some 100, null := true }
          name := "name"
          model := { module := "tests.models", qualname := "Genre" }
          concrete := false } "genre" Option.none).2 (by decide)⟩⟩

/-- Claim C4: `get_db_prep_save` escalates the "writing to deprecated field"
message built from the field name and the owning model's qualified name, and,
when escalation does not raise, returns the framework's standard preparation
of the value for the underlying column (`get_db_prep_value` with
`prepared=False`) — the write path is not nulled. -/
theorem get_db_prep_save_spec (settings : Settings) (self : BoundDeprecatedField)
    (get_db_prep_value : DbPrepFn) (value : PyValue) (connection : DbConnection) :
    (strictFlag settings = PyValue.vBool true →
      self.get_db_prep_save settings get_db_prep_value value connection =
        Except.error { message := (pyFormat writeTemplate
          [self.name, self.model.module, self.model.qualname]) }) ∧
    (strictFlag settings ≠ PyValue.vBool true →
      self.get_db_prep_save settings get_db_prep_value value connection =
        Except.ok
          ([{ message := (pyFormat writeTemplate
                [self.name, self.model.module, self.model.qualname])
              level := LogLevel.error
              stack_info := true }],
            get_db_prep_value value connection false)) := by
  constructor
  · intro h
    simp [BoundDeprecatedField.get_db_prep_save, log_or_raise_strict settings _ _ h]
  · intro h
    simp [BoundDeprecatedField.get_db_prep_save, log_or_raise_nonstrict settings _ _ h]

theorem get_db_prep_save_spec_witness :
    (strictFlag (Option.some (PyValue.vBool true)) = PyValue.vBool true ∧
      BoundDeprecatedField.get_db_prep_save
          { original_field := { fieldType := "CharField", max_length := Option.some 100, null := true }
            name := "name"
            model := { module := "tests.models", qualname := "Artist" }
            concrete := false }
          (Option.some (PyValue.vBool true)) (fun v _ _ => v) (PyValue.vStr "x")
          { vendor := "sqlite" } =
        Except.error { message := (pyFormat writeTemplate ["name", "tests.models", "Artist"]) }) ∧
    (strictFlag Option.none ≠ PyValue.vBool true ∧
      BoundDeprecatedField.get_db_prep_save
          { original_field := { fieldType := "CharField", max_length := Option.some 100, null := true }
            name := "name"
            model := { module := "tests.models", qualname := "Artist" }
            concrete := false }
          Option.none (fun v _ _ => v) (PyValue.vStr "x") { vendor := "sqlite" } =
        Except.ok
          ([{ message := (pyFormat writeTemplate ["name", "tests.models", "Artist"])
              level := LogLevel.error
              stack_info := true }],
            PyValue.vStr "x")) :=
  ⟨⟨by decide,
      (get_db_prep_save_spec (Option.some (PyValue.vBool true))
        { original_field := { fieldType := "CharField", max_length := Option.some 100, null := true }
          name := "name"
          model := { module := "tests.models", qualname := "Artist" }
          concrete := false } (fun v _ _ => v) (PyValue.vStr "x")
        { vendor := "sqlite" }).1 (by decide)⟩,
    ⟨by decide,
      (get_db_prep_save_spec Option.none
        { original_field := { fieldType := "CharField", max_length := Option.some 100, null := true }
          name := "name"
          model := { module := "tests.models", qualname := "Artist" }
          concrete := false } (fun v _ _ => v) (PyValue.vStr "x")
        { vendor := "sqlite" }).2 (by decide)⟩⟩

/-- Claim C5: a descriptor get on an instance escalates the "accessed on
instance of" message and a get on the model class (no instance) escalates the
"accessed on model class" message, each built from the field name and the
class's `__module__`/`__qualname__`; in both cases, when escalation does not
raise, the get returns `None`. -/
theorem descriptor_get_spec (settings : Settings) (desc : DeprecatedFieldDescriptor)
    (obj : InstanceInfo) (cls : Option ClassInfo) (cls2 : ClassInfo) :
    (strictFlag settings = PyValue.vBool true →
      desc.get settings (Option.some obj) cls =
        Except.error { message := (pyFormat accessedInstanceTemplate
          [desc.field.name, obj.cls.module, obj.cls.qualname]) }) ∧
    (strictFlag settings ≠ PyValue.vBool true →
      desc.get settings (Option.some obj) cls =
        Except.ok
          ([{ message := (pyFormat accessedInstanceTemplate
                [desc.field.name, obj.cls.module, obj.cls.qualname])
              level := LogLevel.error
              stack_info := true }],
            PyValue.vNone)) ∧
    (strictFlag settings = PyValue.vBool true →
      desc.get settings Option.none (Option.some cls2) =
        Except.error { message := (pyFormat accessedClassTemplate
          [desc.field.name, cls2.module, cls2.qualname]) }) ∧
    (strictFlag settings ≠ PyValue.vBool true →
      desc.get settings Option.none (Option.some cls2) =
        Except.ok
          ([{ message := (pyFormat accessedClassTemplate
                [desc.field.name, cls2.module, cls2.qualname])
              level := LogLevel.error
              stack_info := true }],
            PyValue.vNone)) := by
  refine ⟨fun h => descGet_instance_strict desc settings obj cls h,
    fun h => descGet_instance_nonstrict desc settings obj cls h, fun h => ?_, fun h => ?_⟩
  · simp [DeprecatedFieldDescriptor.get, log_or_raise_strict settings _ _ h]
  · simp [DeprecatedFieldDescriptor.get, log_or_raise_nonstrict settings _ _ h]

theorem descriptor_get_spec_witness :
    (strictFlag Option.none ≠ PyValue.vBool true ∧
      DeprecatedFieldDescriptor.get { field := { name := "name" } } Option.none
          (Option.some { cls := { module := "tests.models", qualname := "Genre" }, attrs := [] })
          (Option.some { module := "tests.models", qualname := "Genre" }) =
        Except.ok
          ([{ message := (pyFormat accessedInstanceTemplate ["name", "tests.models", "Genre"])
              level := LogLevel.error
              stack_info := true }],
            PyValue.vNone)) ∧
    (strictFlag (Option.some (PyValue.vBool true)) = PyValue.vBool true ∧
      DeprecatedFieldDescriptor.get { field := { name := "name" } }
          (Option.some (PyValue.vBool true)) Option.none
          (Option.some { module := "tests.models", qualname := "Genre" }) =
        Except.error { message := (pyFormat accessedClassTemplate
          ["name", "tests.models", "Genre"]) }) :=
  ⟨⟨by decide,
      (descriptor_get_spec Option.none { field := { name := "name" } }
        { cls := { module := "tests.models", qualname := "Genre" }, attrs := [] }
        (Option.some { module := "tests.models", qualname := "Genre" })
        { module := "tests.models", qualname := "Genre" }).2.1 (by decide)⟩,
    ⟨by decide,
      (descriptor_get_spec (Option.some (PyValue.vBool true)) { field := { name := "name" } }
        { cls := { module := "tests.models", qualname := "Genre" }, attrs := [] }
        (Option.some { module := "tests.models", qualname := "Genre" })
        { module := "tests.models", qualname := "Genre" }).2.2.1 (by decide)⟩⟩

/-- Claim C6: a descriptor set escalates the "tried to set" message and
discards the value: the instance's post-state equals its pre-state and the
whole outcome is independent of the value assigned. -/
theorem descriptor_set_spec (settings : Settings) (desc : DeprecatedFieldDescriptor)
    (obj : InstanceInfo) (v w : PyValue) :
    (strictFlag settings = PyValue.vBool true →
      desc.set settings obj v =
        Except.error { message := (pyFormat setInstanceTemplate
          [desc.field.name, obj.cls.module, obj.cls.qualname]) }) ∧
    (strictFlag settings ≠ PyValue.vBool true →
      desc.set settings obj v =
        Except.ok
          ([{ message := (pyFormat setInstanceTemplate
                [desc.field.name, obj.cls.module, obj.cls.qualname])
              level := LogLevel.error
              stack_info := true }],
            obj)) ∧
    desc.set settings obj v = desc.set settings obj w := by
  refine ⟨fun h => ?_, fun h => ?_, rfl⟩
  · simp [DeprecatedFieldDescriptor.set, log_or_raise_strict settings _ _ h]
  · simp [DeprecatedFieldDescriptor.set, log_or_raise_nonstrict settings _ _ h]

theorem descriptor_set_spec_witness :
    (strictFlag Option.none ≠ PyValue.vBool true ∧
      DeprecatedFieldDescriptor.set { field := { name := "name" } } Option.none
          { cls := { module := "tests.models", qualname := "Genre" }, attrs := [] }
          (PyValue.vStr "rock") =
        Except.ok
          ([{ message := (pyFormat setInstanceTemplate ["name", "tests.models", "Genre"])
              level := LogLevel.error
              stack_info := true }],
            { cls := { module := "tests.models", qualname := "Genre" }, attrs := [] })) ∧
    (strictFlag (Option.some (PyValue.vBool true)) = PyValue.vBool true ∧
      DeprecatedFieldDescriptor.set { field := { name := "name" } }
          (Option.some (PyValue.vBool true))
          { cls := { module := "tests.models", qualname := "Genre" }, attrs := [] }
          (PyValue.vStr "rock") =
        Except.error { message := (pyFormat setInstanceTemplate
          ["name", "tests.models", "Genre"]) }) :=
  ⟨⟨by decide,
      (descriptor_set_spec Option.none { field := { name := "name" } }
        { cls := { module := "tests.models", qualname := "Genre" }, attrs := [] }
        (PyValue.vStr "rock") (PyValue.vStr "rock")).2.1 (by decide)⟩,
    ⟨by decide,
      (descriptor_set_spec (Option.some (PyValue.vBool true)) { field := { name := "name" } }
        { cls := { module := "tests.models", qualname := "Genre" }, attrs := [] }
        (PyValue.vStr "rock") (PyValue.vStr "rock")).1 (by decide)⟩⟩

/-- Claim C7: `get_default` returns the `DEFERRED` sentinel, never a concrete
value, and performs no escalation in either policy mode, so constructing an
instance without supplying a value for the deprecated field produces zero
diagnostics (no log record, no exception) and leaves the instance unchanged. -/
theorem get_default_silent (settings : Settings) (self : BoundDeprecatedField)
    (desc : DeprecatedFieldDescriptor) (obj : InstanceInfo) :
    self.get_default settings = Except.ok ([], DefaultValue.DEFERRED) ∧
    constructWithoutValue self settings desc obj = Except.ok ([], obj) :=
  ⟨rfl, rfl⟩

/-- Claim C8: rendering the `Null` expression to SQL returns exactly the
literal text `"NULL"` and an empty list of bound parameters, for every
compiler and connection and regardless of the expression's `output_field`. -/
theorem null_as_sql_spec (C D : Type) (e : Null) (compiler : C) (connection : D) :
    e.as_sql compiler connection = ("NULL", ([] : List PyValue)) :=
  rfl

/-- Claim C9: `n` successive reads of a deprecated field on the same instance
form a list of `n` identical outcomes of the single-read operation — the
descriptor and instance carry no state that a read changes — and outside
strict mode every one of the reads emits its own "accessed on instance"
diagnostic and returns `None`. -/
theorem repeated_reads_uniform (desc : DeprecatedFieldDescriptor) (settings : Settings)
    (obj : InstanceInfo) (n : Nat) :
    repeatedReads desc settings n obj =
      List.replicate n (desc.get settings (Option.some obj) (Option.some obj.cls)) ∧
    (strictFlag settings ≠ PyValue.vBool true →
      ∀ r ∈ repeatedReads desc settings n obj,
        r = Except.ok
          ([{ message := (pyFormat accessedInstanceTemplate
                [desc.field.name, obj.cls.module, obj.cls.qualname])
              level := LogLevel.error
              stack_info := true }],
            PyValue.vNone)) := by
  have hrep : ∀ m : Nat, repeatedReads desc settings m obj =
      List.replicate m (desc.get settings (Option.some obj) (Option.some obj.cls)) := by
    intro m
    induction m with
    | zero => rfl
    | succ k ih => simp [repeatedReads, readField, ih, List.replicate]
  refine ⟨hrep n, fun h r hr => ?_⟩
  rw [hrep n] at hr
  rw [List.eq_of_mem_replicate hr]
  exact descGet_instance_nonstrict desc settings obj _ h

theorem repeated_reads_uniform_witness :
    strictFlag Option.none ≠ PyValue.vBool true ∧
    ∀ r ∈ repeatedReads { field := { name := "name" } } Option.none 3
        { cls := { module := "tests.models", qualname := "Genre" }, attrs := [] },
      r = Except.ok
        ([{ message := (pyFormat accessedInstanceTemplate ["name", "tests.models", "Genre"])
            level := LogLevel.error
            stack_info := true }],
          PyValue.vNone) :=
  ⟨by decide,
    (repeated_reads_uniform { field := { name := "name" } } Option.none
      { cls := { module := "tests.models", qualname := "Genre" }, attrs := [] } 3).2 (by decide)⟩

/-- Claim C10: escalation raises only when the `STRICT_DEPRECATED_FIELD`
setting is exactly the boolean `True`; for every other value — including
truthy non-booleans like `1` or `"true"` — `log_or_raise` logs once and
returns normally. -/
theorem strict_raises_only_on_bool_true (settings : Settings) (fmt : String)
    (args : List String) :
    (strictFlag settings ≠ PyValue.vBool true →
      log_or_raise settings fmt args =
        Except.ok
          ([{ message := pyFormat fmt args
              level := LogLevel.error
              stack_info := true }],
            PyValue.vNone)) ∧
    (∀ e, log_or_raise settings fmt args = Except.error e →
      strictFlag settings = PyValue.vBool true) := by
  refine ⟨fun h => log_or_raise_nonstrict settings fmt args h, fun e he => ?_⟩
  by_contra h
  rw [log_or_raise_nonstrict settings fmt args h] at he
  exact Except.noConfusion he

theorem strict_raises_only_on_bool_true_witness :
    (strictFlag (Option.some (PyValue.vInt 1)) ≠ PyValue.vBool true ∧
      log_or_raise (Option.some (PyValue.vInt 1)) "touched %s" ["g"] =
        Except.ok
          ([{ message := pyFormat "touched %s" ["g"]
              level := LogLevel.error
              stack_info := true }],
            PyValue.vNone)) ∧
    (strictFlag (Option.some (PyValue.vStr "true")) ≠ PyValue.vBool true ∧
      log_or_raise (Option.some (PyValue.vStr "true")) "touched %s" ["g"] =
        Except.ok
          ([{ message := pyFormat "touched %s" ["g"]
              level := LogLevel.error
              stack_info := true }],
            PyValue.vNone)) :=
  ⟨⟨by decide,
      (strict_raises_only_on_bool_true (Option.some (PyValue.vInt 1))
        "touched %s" ["g"]).1 (by decide)⟩,
    ⟨by decide,
      (strict_raises_only_on_bool_true (Option.some (PyValue.vStr "true"))
        "touched %s" ["g"]).1 (by decide)⟩⟩

end DeprecatedFieldLib
